import Mathlib

/-!
PolicyFlow: a shallow embedding of the policy-distribution service's
database layer (internal/database/db.go) and HTTP handlers
(internal/handlers: policies.go, users.go, departments.go), with proofs
about the authorization, visibility and lifecycle behaviour.

Strings model SQLite TEXT columns, Option String models nullable
columns, and Nat models timestamps (only their relative order matters).
Each HTTP handler is modelled as a pure function from the request data
and the current database state to an HTTP status code and the next
database state; generated UUIDs and clock readings, which the Go code
draws from the environment, are passed in as explicit parameters.
-/

namespace PolicyFlow

/-- Role constant from internal/middleware/auth.go. -/
def RoleSuperAdmin : String := "SuperAdmin"

/-- Role constant from internal/middleware/auth.go. -/
def RoleDeptAdmin : String := "DeptAdmin"

/-- Role constant from internal/middleware/auth.go. -/
def RoleStaff : String := "Staff"

/-- database.Department row. -/
structure Department where
  id : String
  name : String
  description : String
  deriving DecidableEq

/-- database.User row. DepartmentName (a read-time join artifact) and the
display timestamps are omitted; createdAt is a Nat tick. -/
structure User where
  id : String
  email : String
  name : String
  role : String
  createdBy : Option String
  departmentId : Option String
  createdAt : Nat
  deriving DecidableEq

/-- database.Policy row. department is the legacy free-text column;
departmentId is the normalized nullable foreign key. -/
structure Policy where
  id : String
  title : String
  currentVersionId : Option String
  status : String
  department : String
  departmentId : Option String
  visibilityType : String
  createdAt : Nat
  deriving DecidableEq

/-- database.PolicyVersion row. -/
structure PolicyVersion where
  id : String
  policyId : String
  content : String
  versionString : String
  changelog : String
  createdAt : Nat
  deriving DecidableEq

/-- database.Acknowledgement row. -/
structure Acknowledgement where
  id : String
  userId : String
  policyVersionId : String
  timestamp : Nat
  signatureHash : String
  deriving DecidableEq

/-- The document store: one list per table, in insertion order. -/
structure DB where
  users : List User
  departments : List Department
  policies : List Policy
  versions : List PolicyVersion
  acks : List Acknowledgement
  deriving DecidableEq

/-- The store with every table empty. -/
def emptyDB : DB := ⟨[], [], [], [], []⟩

/-- Signature hash computed in DB.CreateAcknowledgement:
sha256 over userID + policyVersionID + timestamp. The digest is modelled
by its preimage string; no claim depends on any property of SHA-256
beyond the hash being a deterministic function of these three inputs. -/
def signatureHash (userId policyVersionId : String) (ts : Nat) : String :=
  userId ++ policyVersionId ++ toString ts

/-- DB.GetPolicy: SELECT ... FROM policies WHERE id = ?. -/
def DB.getPolicy (db : DB) (id : String) : Option Policy :=
  db.policies.find? (fun p => p.id == id)

/-- Whether a department row with the given id exists. -/
def DB.departmentExists (db : DB) (id : String) : Bool :=
  db.departments.any (fun d => d.id == id)

/-- The foreign-key check for a nullable department reference: with
PRAGMA foreign_keys = ON, the columns users.department_id and
policies.department_id (both TEXT REFERENCES departments(id), added by
migrations 002 and 003) accept NULL, and a non-null value must match an
existing department row; otherwise the write fails and the handler
answers 500. -/
def DB.fkDeptOk (db : DB) : Option String → Bool
  | none => true
  | some d => db.departmentExists d

/-- DB.CreatePolicy: INSERT INTO policies with status fixed to Draft and
no current version. The insert fails (none) when a non-null
department_id violates the policies.department_id foreign key. -/
def DB.createPolicy (db : DB) (freshId title department : String)
    (departmentId : Option String) (visibilityType : String) (ts : Nat) : Option DB :=
  if db.fkDeptOk departmentId then
    some { db with policies := db.policies ++
      [{ id := freshId, title := title, currentVersionId := none,
         status := "Draft", department := department,
         departmentId := departmentId, visibilityType := visibilityType,
         createdAt := ts }] }
  else none

/-- DB.UpdatePolicy: UPDATE policies SET title, status, department,
department_id, visibility_type WHERE id = ?. -/
def DB.updatePolicy (db : DB) (id title status department : String)
    (departmentId : Option String) (visibilityType : String) : DB :=
  { db with policies := db.policies.map (fun p =>
      if p.id == id then
        { p with title := title, status := status, department := department,
                 departmentId := departmentId, visibilityType := visibilityType }
      else p) }

/-- DB.SetPolicyCurrentVersion: UPDATE policies SET current_version_id = ?
WHERE id = ?. -/
def DB.setPolicyCurrentVersion (db : DB) (policyId versionId : String) : DB :=
  { db with policies := db.policies.map (fun p =>
      if p.id == policyId then { p with currentVersionId := some versionId } else p) }

/-- DB.CreatePolicyVersion: INSERT INTO policy_versions; returns the row. -/
def DB.createPolicyVersion (db : DB) (freshId policyId content versionString changelog : String)
    (ts : Nat) : PolicyVersion × DB :=
  let v : PolicyVersion :=
    { id := freshId, policyId := policyId, content := content,
      versionString := versionString, changelog := changelog, createdAt := ts }
  (v, { db with versions := db.versions ++ [v] })

/-- DB.HasAcknowledged: SELECT COUNT(*) > 0 FROM acknowledgements
WHERE user_id = ? AND policy_version_id = ?. -/
def DB.hasAcknowledged (db : DB) (userId policyVersionId : String) : Bool :=
  db.acks.any (fun a => a.userId == userId && a.policyVersionId == policyVersionId)

/-- DB.CreateAcknowledgement: INSERT INTO acknowledgements with a freshly
computed signature hash and the current timestamp; returns the row. -/
def DB.createAcknowledgement (db : DB) (freshId userId policyVersionId : String)
    (ts : Nat) : Acknowledgement × DB :=
  let a : Acknowledgement :=
    { id := freshId, userId := userId, policyVersionId := policyVersionId,
      timestamp := ts, signatureHash := signatureHash userId policyVersionId ts }
  (a, { db with acks := db.acks ++ [a] })

/-- DB.CountSuperAdmins: SELECT COUNT(*) FROM users WHERE role='SuperAdmin'. -/
def DB.countSuperAdmins (db : DB) : Nat :=
  (db.users.filter (fun u => u.role == RoleSuperAdmin)).length

/-- DB.GetUserByID: SELECT ... FROM users WHERE id = ?. -/
def DB.getUserByID (db : DB) (id : String) : Option User :=
  db.users.find? (fun u => u.id == id)

/-- DB.UpdateUser: UPDATE users SET name, email, role, department_id
WHERE id = ?. The update fails (none) when a non-null department_id
violates the users.department_id foreign key. -/
def DB.updateUser (db : DB) (id name email role : String)
    (departmentId : Option String) : Option DB :=
  if db.fkDeptOk departmentId then
    some { db with users := db.users.map (fun u =>
      if u.id == id then
        { u with name := name, email := email, role := role, departmentId := departmentId }
      else u) }
  else none

/-- Whether a user row is still referenced after its deletion: with
foreign_keys = ON, any remaining user whose created_by points at it, or
any acknowledgement recorded by it, blocks DELETE FROM users
(users.created_by REFERENCES users(id),
acknowledgements.user_id REFERENCES users(id)). -/
def DB.userReferenced (db : DB) (id : String) : Bool :=
  db.users.any (fun u => !(u.id == id) && u.createdBy == some id) ||
  db.acks.any (fun a => a.userId == id)

/-- DB.DeleteUser: DELETE FROM users WHERE id = ?. The delete fails
(none) when the row is still referenced by created_by or by an
acknowledgement. -/
def DB.deleteUser (db : DB) (id : String) : Option DB :=
  if db.userReferenced id then none
  else some { db with users := db.users.filter (fun u => !(u.id == id)) }

/-- DB.GetDepartment: SELECT ... FROM departments WHERE id = ?. -/
def DB.getDepartment (db : DB) (id : String) : Option Department :=
  db.departments.find? (fun d => d.id == id)

/-- Whether a department row is referenced: with foreign_keys = ON, any
user or policy whose department_id points at it blocks
DELETE FROM departments. -/
def DB.departmentReferenced (db : DB) (id : String) : Bool :=
  db.users.any (fun u => u.departmentId == some id) ||
  db.policies.any (fun p => p.departmentId == some id)

/-- DB.DeleteDepartment: DELETE FROM departments WHERE id = ?. The
delete fails (none) when a user or policy still references the row. -/
def DB.deleteDepartment (db : DB) (id : String) : Option DB :=
  if db.departmentReferenced id then none
  else some { db with departments := db.departments.filter (fun d => !(d.id == id)) }

/-- DB.DepartmentHasPolicies: SELECT COUNT(*) > 0 FROM policies
WHERE department_id = ?. -/
def DB.departmentHasPolicies (db : DB) (id : String) : Bool :=
  db.policies.any (fun p => p.departmentId == some id)

/-- ORDER BY created_at DESC, as used by the policy list queries. -/
def sortNewestFirst (ps : List Policy) : List Policy :=
  ps.mergeSort (fun a b => b.createdAt ≤ a.createdAt)

/-- DB.ListPoliciesForUser: SuperAdmin sees all policies; a caller with a
department sees organization-wide policies plus department policies
matching their own department_id; a caller with no department sees
organization-wide policies only. All newest-first. -/
def DB.listPoliciesForUser (db : DB) (role : String) (deptId : Option String) : List Policy :=
  if role = "SuperAdmin" then
    sortNewestFirst db.policies
  else
    match deptId with
    | some d =>
        sortNewestFirst (db.policies.filter (fun p =>
          p.visibilityType == "organization" ||
          (p.visibilityType == "department" && p.departmentId == some d)))
    | none =>
        sortNewestFirst (db.policies.filter (fun p => p.visibilityType == "organization"))

/-- Resolved request claims: user id, role and department injected by the
auth middleware (CtxUserID, CtxUserRole, CtxDeptID). -/
structure Caller where
  userId : String
  role : String
  deptId : Option String
  deriving DecidableEq

/-- A handler outcome: HTTP status code plus the store state afterwards. -/
structure Resp where
  status : Nat
  db : DB
  deriving DecidableEq

/-- Valid visibility types accepted by Policy.Create. -/
def validVisibility (v : String) : Bool :=
  v == "organization" || v == "department"

/-- Valid statuses accepted by Policy.Update. -/
def validStatus (s : String) : Bool :=
  s == "Draft" || s == "Review" || s == "Published" || s == "Archived"

/-- Valid roles accepted by User.Update. -/
def validRole (r : String) : Bool :=
  r == RoleSuperAdmin || r == RoleDeptAdmin || r == RoleStaff

/-- Request body of POST /api/policies. -/
structure CreatePolicyBody where
  title : String
  department : String
  departmentId : Option String
  visibilityType : String
  deriving DecidableEq

/-- Request body of PUT /api/policies/:id. -/
structure UpdatePolicyBody where
  title : String
  status : String
  department : String
  departmentId : Option String
  visibilityType : String
  deriving DecidableEq

/-- Request body of POST /api/policies/:id/versions. -/
structure VersionBody where
  content : String
  versionString : String
  changelog : String
  deriving DecidableEq

/-- Request body of PUT /api/users/:id. -/
structure UpdateUserBody where
  name : String
  email : String
  role : String
  departmentId : Option String
  deriving DecidableEq

/-- Handler Policy.Create (POST /api/policies): title required; empty
visibility_type defaults to organization; visibility_type must be valid;
a DeptAdmin caller must have a department and has visibility_type and
department_id force-overridden to their own department; a failing
insert (foreign-key violation) answers 500. -/
def PolicyH.create (caller : Caller) (body : CreatePolicyBody)
    (freshId : String) (ts : Nat) (db : DB) : Resp :=
  if body.title = "" then ⟨400, db⟩
  else
    let vis := if body.visibilityType = "" then "organization" else body.visibilityType
    if !(validVisibility vis) then ⟨400, db⟩
    else if caller.role = RoleDeptAdmin then
      match caller.deptId with
      | none => ⟨403, db⟩
      | some cd =>
        match db.createPolicy freshId body.title body.department (some cd) "department" ts with
        | none => ⟨500, db⟩
        | some db2 => ⟨201, db2⟩
    else
      match db.createPolicy freshId body.title body.department body.departmentId vis ts with
      | none => ⟨500, db⟩
      | some db2 => ⟨201, db2⟩

/-- Handler Policy.Update (PUT /api/policies/:id): 404 if missing; a
DeptAdmin may only update a policy of their own department, else 403;
empty body fields default to the stored values; for a DeptAdmin the
outgoing visibility_type and department_id are clamped to department /
the caller's department; the status must be valid, else 400. -/
def PolicyH.update (caller : Caller) (policyId : String)
    (body : UpdatePolicyBody) (db : DB) : Resp :=
  match db.getPolicy policyId with
  | none => ⟨404, db⟩
  | some policy =>
    if caller.role = RoleDeptAdmin ∧
        (caller.deptId = none ∨ policy.departmentId = none ∨
         caller.deptId ≠ policy.departmentId) then
      ⟨403, db⟩
    else
      let title := if body.title = "" then policy.title else body.title
      let status := if body.status = "" then policy.status else body.status
      let department := if body.department = "" then policy.department else body.department
      let visibilityType0 := if body.visibilityType = "" then policy.visibilityType else body.visibilityType
      let departmentId0 := match body.departmentId with
        | none => policy.departmentId
        | some d => some d
      let visibilityType := if caller.role = RoleDeptAdmin then "department" else visibilityType0
      let departmentId := if caller.role = RoleDeptAdmin then caller.deptId else departmentId0
      if validStatus status then
        ⟨200, db.updatePolicy policy.id title status department departmentId visibilityType⟩
      else ⟨400, db⟩

/-- Outcome of the acknowledge handler: status, next store state, and the
created row (201 only). -/
structure AckResp where
  status : Nat
  db : DB
  ack : Option Acknowledgement
  deriving DecidableEq

/-- Handler Policy.Acknowledge (POST /api/policies/:id/acknowledge):
404 if missing; 400 unless the policy is Published with a current
version; 409 if this user already acknowledged that version; otherwise
201 with a freshly created acknowledgement row. -/
def PolicyH.acknowledge (userId policyId freshId : String) (ts : Nat) (db : DB) : AckResp :=
  match db.getPolicy policyId with
  | none => ⟨404, db, none⟩
  | some policy =>
    if policy.status ≠ "Published" then ⟨400, db, none⟩
    else
      match policy.currentVersionId with
      | none => ⟨400, db, none⟩
      | some vid =>
        if db.hasAcknowledged userId vid then ⟨409, db, none⟩
        else
          let r := db.createAcknowledgement freshId userId vid ts
          ⟨201, r.2, some r.1⟩

/-- Outcome of the create-version handler: status, next store state, and
the created version row (201 only). -/
structure VersionResp where
  status : Nat
  db : DB
  version : Option PolicyVersion
  deriving DecidableEq

/-- Handler Policy.CreateVersion (POST /api/policies/:id/versions):
404 if missing; a DeptAdmin may only add versions to department-scoped
policies of their own department, else 403; content and version_string
required, else 400; otherwise the version row is inserted and the
policy's current_version_id is repointed to it. -/
def PolicyH.createVersion (caller : Caller) (policyId : String)
    (body : VersionBody) (freshId : String) (ts : Nat) (db : DB) : VersionResp :=
  match db.getPolicy policyId with
  | none => ⟨404, db, none⟩
  | some policy =>
    if caller.role = RoleDeptAdmin ∧
        (policy.visibilityType ≠ "department" ∨ caller.deptId = none ∨
         policy.departmentId = none ∨ caller.deptId ≠ policy.departmentId) then
      ⟨403, db, none⟩
    else if body.content = "" ∨ body.versionString = "" then ⟨400, db, none⟩
    else
      let r := db.createPolicyVersion freshId policy.id body.content body.versionString body.changelog ts
      ⟨201, r.2.setPolicyCurrentVersion policy.id r.1.id, some r.1⟩

/-- Handler User.Update (PUT /api/users/:id): 404 if missing; empty body
fields default to the stored values; the role must be valid, else 400;
demoting the last remaining SuperAdmin is rejected with 409. -/
def UserH.update (targetId : String) (body : UpdateUserBody) (db : DB) : Resp :=
  match db.getUserByID targetId with
  | none => ⟨404, db⟩
  | some target =>
    let name := if body.name = "" then target.name else body.name
    let email := if body.email = "" then target.email else body.email
    let role := if body.role = "" then target.role else body.role
    if !(validRole role) then ⟨400, db⟩
    else if target.role = RoleSuperAdmin ∧ role ≠ RoleSuperAdmin ∧ db.countSuperAdmins ≤ 1 then
      ⟨409, db⟩
    else
      match db.updateUser targetId name email role body.departmentId with
      | none => ⟨500, db⟩
      | some db2 => ⟨200, db2⟩

/-- Handler User.Delete (DELETE /api/users/:id): self-deletion is
rejected with 409; 404 if missing; deleting the last remaining
SuperAdmin is rejected with 409; otherwise 204. -/
def UserH.delete (callerId targetId : String) (db : DB) : Resp :=
  if targetId = callerId then ⟨409, db⟩
  else
    match db.getUserByID targetId with
    | none => ⟨404, db⟩
    | some target =>
      if target.role = RoleSuperAdmin ∧ db.countSuperAdmins ≤ 1 then ⟨409, db⟩
      else
        match db.deleteUser targetId with
        | none => ⟨500, db⟩
        | some db2 => ⟨204, db2⟩

/-- Handler Departments.Delete (DELETE /api/departments/:id): 404 if
missing; 409 while any policy still references the department;
otherwise the row is deleted with 204, unless the delete itself fails
on a remaining reference (users.department_id), which answers 500. -/
def DepartmentsH.delete (id : String) (db : DB) : Resp :=
  match db.getDepartment id with
  | none => ⟨404, db⟩
  | some _ =>
    if db.departmentHasPolicies id then ⟨409, db⟩
    else
      match db.deleteDepartment id with
      | none => ⟨500, db⟩
      | some db2 => ⟨204, db2⟩

/-- A policy create or update operation, as submitted to the two
mutating policy-metadata endpoints. -/
inductive PolicyOp where
  | create (caller : Caller) (body : CreatePolicyBody) (freshId : String) (ts : Nat)
  | update (caller : Caller) (policyId : String) (body : UpdatePolicyBody)
  deriving DecidableEq

/-- The claims under which a policy operation was submitted. -/
def PolicyOp.opCaller : PolicyOp → Caller
  | .create c _ _ _ => c
  | .update c _ _ => c

/-- Store state after one policy create/update operation. -/
def applyPolicyOp (db : DB) : PolicyOp → DB
  | .create c body fid ts => (PolicyH.create c body fid ts db).db
  | .update c pid body => (PolicyH.update c pid body db).db

/-- Store state after a sequence of policy create/update operations. -/
def applyPolicyOps (db : DB) (ops : List PolicyOp) : DB :=
  ops.foldl applyPolicyOp db

/-- The visibility/department consistency condition on a single policy:
organization-wide implies no department, department-scoped implies a
department. -/
def policyScopeInv (p : Policy) : Prop :=
  (p.visibilityType = "organization" → p.departmentId = none) ∧
  (p.visibilityType = "department" → p.departmentId ≠ none)

instance (p : Policy) : Decidable (policyScopeInv p) := by
  unfold policyScopeInv
  infer_instance

/-- Every policy in the store satisfies the scope condition. -/
def dbScopeInv (db : DB) : Prop :=
  ∀ p ∈ db.policies, policyScopeInv p

/-- Acknowledgements are unique on the (user_id, policy_version_id) pair. -/
def acksUnique (db : DB) : Prop :=
  db.acks.Pairwise (fun a b => ¬(a.userId = b.userId ∧ a.policyVersionId = b.policyVersionId))

/-- A list of policies is ordered newest-first. -/
def newestFirst (ps : List Policy) : Prop :=
  ps.Pairwise (fun a b => b.createdAt ≤ a.createdAt)

/-! Concrete sample data used to instantiate the theorems below. -/

/-- A sample department. -/
def deptEng : Department := ⟨"d1", "Engineering", ""⟩

/-- A department-scoped policy owned by department d1. -/
def polDeptD1 : Policy :=
  { id := "p1", title := "Remote work", currentVersionId := none, status := "Draft",
    department := "", departmentId := some "d1", visibilityType := "department",
    createdAt := 1 }

/-- An organization-wide policy. -/
def polOrg : Policy :=
  { id := "p2", title := "Code of conduct", currentVersionId := none, status := "Draft",
    department := "", departmentId := none, visibilityType := "organization",
    createdAt := 2 }

/-- A published organization-wide policy pointing at version v1. -/
def polPub : Policy :=
  { id := "p3", title := "Security", currentVersionId := some "v1", status := "Published",
    department := "", departmentId := none, visibilityType := "organization",
    createdAt := 3 }

/-- The current version of polPub. -/
def verV1 : PolicyVersion := ⟨"v1", "p3", "text", "1.0", "", 0⟩

/-- A SuperAdmin user. -/
def userSuperA : User := ⟨"ua", "a@x.io", "A", "SuperAdmin", none, none, 0⟩

/-- A second SuperAdmin user. -/
def userSuperB : User := ⟨"ub", "b@x.io", "B", "SuperAdmin", none, none, 0⟩

/-- A SuperAdmin caller. -/
def superCaller : Caller := ⟨"u0", "SuperAdmin", none⟩

/-- A DeptAdmin caller belonging to department d1. -/
def deptAdminD1 : Caller := ⟨"u1", "DeptAdmin", some "d1"⟩

/-- A store holding the three sample policies, the sample department,
the sample version and the two SuperAdmins. -/
def sampleDB : DB :=
  ⟨[userSuperA, userSuperB], [deptEng], [polDeptD1, polOrg, polPub], [verV1], []⟩

/-- A store holding only the sample department d1. -/
def dbDept : DB := ⟨[], [deptEng], [], [], []⟩

/-- Updating rows in place commutes with row lookup: if a row is found
before an id-preserving rewrite of the matching rows, the rewritten row
is found afterwards. -/
theorem find?_update_map (l : List Policy) (pid : String) (p : Policy) (f : Policy → Policy)
    (hf : ∀ q, (f q).id = q.id)
    (h : l.find? (fun q => q.id == pid) = some p) :
    (l.map (fun q => if q.id == pid then f q else q)).find? (fun q => q.id == pid) = some (f p) := by
  induction l with
  | nil => simp at h
  | cons a l ih =>
    by_cases ha : a.id = pid
    · rw [List.find?_cons_of_pos _ (by simpa using ha)] at h
      cases h
      rw [List.map_cons, if_pos (by simpa using ha),
        List.find?_cons_of_pos _ (by simp [hf, ha])]
    · rw [List.find?_cons_of_neg _ (by simpa using ha)] at h
      rw [List.map_cons, if_neg (by simpa using ha),
        List.find?_cons_of_neg _ (by simpa using ha)]
      exact ih h

/-- C10: a user-delete request whose target id equals the caller's own id
fails with Conflict (409) and leaves the store unchanged, regardless of
the caller's role and of how many SuperAdmins exist. -/
theorem userDelete_self_is_conflict (callerId : String) (db : DB) :
    UserH.delete callerId callerId db = ⟨409, db⟩ := by
  unfold UserH.delete
  simp

/-- C3: acknowledging an existing policy fails with 400 unless it is
Published with a current version; fails with 409 if this user already
acknowledged the current version; otherwise returns 201 with a new
acknowledgement row for that user and version carrying the freshly
computed signature hash and the current timestamp; and the uniqueness of
(user_id, policy_version_id) pairs is preserved in every case. -/
theorem acknowledge_spec (userId policyId freshId : String) (ts : Nat) (db : DB) (p : Policy)
    (hfind : db.getPolicy policyId = some p) :
    (¬(p.status = "Published" ∧ p.currentVersionId ≠ none) →
       PolicyH.acknowledge userId policyId freshId ts db = ⟨400, db, none⟩) ∧
    (∀ vid, p.status = "Published" → p.currentVersionId = some vid →
       (db.hasAcknowledged userId vid = true →
          PolicyH.acknowledge userId policyId freshId ts db = ⟨409, db, none⟩) ∧
       (db.hasAcknowledged userId vid = false →
          PolicyH.acknowledge userId policyId freshId ts db =
            ⟨201,
             { db with acks := db.acks ++ [⟨freshId, userId, vid, ts, signatureHash userId vid ts⟩] },
             some ⟨freshId, userId, vid, ts, signatureHash userId vid ts⟩⟩)) ∧
    (acksUnique db → acksUnique (PolicyH.acknowledge userId policyId freshId ts db).db) := by
  unfold PolicyH.acknowledge
  rw [hfind]
  refine ⟨?_, ?_, ?_⟩
  · intro hno
    by_cases hs : p.status = "Published"
    · have hcv : p.currentVersionId = none := by
        by_contra hc
        exact hno ⟨hs, hc⟩
      simp [hs, hcv]
    · simp [hs]
  · intro vid hs hcv
    constructor
    · intro hack
      simp [hs, hcv, hack]
    · intro hack
      simp [hs, hcv, hack, DB.createAcknowledgement]
  · intro hu
    by_cases hs : p.status = "Published"
    · cases hcv : p.currentVersionId with
      | none => simpa [hs, hcv] using hu
      | some vid =>
        cases hack : db.hasAcknowledged userId vid with
        | true => simpa [hs, hcv, hack] using hu
        | false =>
          simp only [hs, hcv, hack]
          unfold acksUnique at hu
          unfold DB.createAcknowledgement acksUnique
          dsimp only
          simp only [ne_eq, not_false_eq_true, Bool.false_eq_true, if_false, ite_false]
          rw [if_neg (by simp : ¬¬True)]
          dsimp only
          rw [List.pairwise_append]
          refine ⟨hu, by simp, ?_⟩
          intro a ha b hb
          have hb' : b = ⟨freshId, userId, vid, ts, signatureHash userId vid ts⟩ := by
            simpa using hb
          subst hb'
          have hall : ∀ x ∈ db.acks, x.userId = userId → ¬x.policyVersionId = vid := by
            simpa [DB.hasAcknowledged] using hack
          rintro ⟨h1, h2⟩
          exact absurd h2 (hall a ha h1)
    · simpa [hs] using hu

/-- C3 witness: acknowledging the published sample policy p3 as a fresh
user succeeds with 201. -/
theorem acknowledge_spec_witness :
    (PolicyH.acknowledge "us" "p3" "a1" 5 sampleDB).status = 201 := by
  have h := acknowledge_spec "us" "p3" "a1" 5 sampleDB polPub rfl
  rw [(h.2.1 "v1" rfl rfl).2 rfl]

/-- C1 counterexample: a DeptAdmin updating a policy of their own
department — exactly the case the claim says succeeds with 200 — can
still receive 400 when the request carries an invalid status string. -/
theorem policyUpdate_c1_counterexample :
    deptAdminD1.role = RoleDeptAdmin ∧
    (sampleDB.getPolicy "p1").map Policy.departmentId = some deptAdminD1.deptId ∧
    (PolicyH.update deptAdminD1 "p1" ⟨"", "Bogus", "", none, ""⟩ sampleDB).status = 400 := by
  refine ⟨rfl, by decide, by decide⟩

/-- C1 (amended): a DeptAdmin may update only a policy whose
department_id is non-null and equals their own, else 403 with nothing
changed; when the departments match and the effective status (the
request's status, defaulting to the stored one when empty) is one of the
four valid statuses, the update succeeds with 200 and the persisted
policy has visibility_type department and the caller's department_id,
regardless of the visibility_type or department_id supplied in the
body; with an invalid effective status it instead fails with 400 and
nothing is changed. -/
theorem policyUpdate_deptAdmin_spec (caller : Caller) (policyId : String)
    (body : UpdatePolicyBody) (db : DB) (p : Policy)
    (hrole : caller.role = RoleDeptAdmin)
    (hfind : db.getPolicy policyId = some p) :
    ((caller.deptId = none ∨ p.departmentId = none ∨ caller.deptId ≠ p.departmentId) →
       PolicyH.update caller policyId body db = ⟨403, db⟩) ∧
    (∀ d, caller.deptId = some d → p.departmentId = some d →
       (validStatus (if body.status = "" then p.status else body.status) = true →
          (PolicyH.update caller policyId body db).status = 200 ∧
          ∃ q, (PolicyH.update caller policyId body db).db.getPolicy policyId = some q ∧
            q.visibilityType = "department" ∧ q.departmentId = some d) ∧
       (validStatus (if body.status = "" then p.status else body.status) = false →
          PolicyH.update caller policyId body db = ⟨400, db⟩)) := by
  have hfind' : db.policies.find? (fun q => q.id == policyId) = some p := hfind
  have hpid : p.id = policyId := by simpa using List.find?_some hfind'
  constructor
  · intro hbad
    unfold PolicyH.update
    rw [hfind]
    dsimp only
    rw [if_pos ⟨hrole, hbad⟩]
  · intro d hcd hpd
    have hguard : ¬(caller.role = RoleDeptAdmin ∧
        (caller.deptId = none ∨ p.departmentId = none ∨ caller.deptId ≠ p.departmentId)) := by
      rintro ⟨-, h | h | h⟩ <;> simp [hcd, hpd] at h
    constructor
    · intro hst
      unfold PolicyH.update
      rw [hfind]
      dsimp only
      rw [if_neg hguard, if_pos hst]
      refine ⟨rfl, ?_⟩
      refine ⟨{ p with
          title := if body.title = "" then p.title else body.title,
          status := if body.status = "" then p.status else body.status,
          department := if body.department = "" then p.department else body.department,
          departmentId := caller.deptId,
          visibilityType := "department" }, ?_, by simp, by simp [hcd]⟩
      unfold DB.updatePolicy DB.getPolicy
      dsimp only
      rw [hpid]
      have := find?_update_map db.policies policyId p
        (fun q => { q with
          title := if body.title = "" then p.title else body.title,
          status := if body.status = "" then p.status else body.status,
          department := if body.department = "" then p.department else body.department,
          departmentId := caller.deptId,
          visibilityType := "department" }) (fun q => rfl) hfind'
      simpa [hrole, RoleDeptAdmin, hpid] using this
    · intro hst
      unfold PolicyH.update
      rw [hfind]
      dsimp only
      rw [if_neg hguard, if_neg (by simp [hst])]

/-- C1 witness: the sample DeptAdmin of d1 updating its own policy p1
while requesting organization-wide visibility still succeeds with 200
and the persisted policy remains department-scoped to d1. -/
theorem policyUpdate_deptAdmin_spec_witness :
    (PolicyH.update deptAdminD1 "p1" ⟨"", "", "", none, "organization"⟩ sampleDB).status = 200 ∧
    ∃ q, (PolicyH.update deptAdminD1 "p1" ⟨"", "", "", none, "organization"⟩ sampleDB).db.getPolicy "p1"
        = some q ∧ q.visibilityType = "department" ∧ q.departmentId = some "d1" :=
  ((policyUpdate_deptAdmin_spec deptAdminD1 "p1" ⟨"", "", "", none, "organization"⟩ sampleDB
    polDeptD1 rfl rfl).2 "d1" rfl rfl).1 (by decide)

/-- C6: for a DeptAdmin caller and an existing policy, CreateVersion
fails with Forbidden (403) and changes nothing whenever the policy is
not department-scoped, or its department_id is null, or it differs from
the caller's department; when the policy is department-scoped to the
caller's own department and the body is valid, it succeeds with 201; a
SuperAdmin caller is never answered with 403. -/
theorem createVersion_guard_spec (db : DB) (policyId : String) (body : VersionBody)
    (freshId : String) (ts : Nat) (p : Policy)
    (hfind : db.getPolicy policyId = some p) :
    (∀ caller : Caller, caller.role = RoleDeptAdmin →
       ((p.visibilityType ≠ "department" ∨ p.departmentId = none ∨
           p.departmentId ≠ caller.deptId) →
          PolicyH.createVersion caller policyId body freshId ts db = ⟨403, db, none⟩) ∧
       (∀ d, caller.deptId = some d → p.departmentId = some d →
          p.visibilityType = "department" →
          body.content ≠ "" → body.versionString ≠ "" →
          (PolicyH.createVersion caller policyId body freshId ts db).status = 201)) ∧
    (∀ caller : Caller, caller.role = RoleSuperAdmin →
       (PolicyH.createVersion caller policyId body freshId ts db).status ≠ 403) := by
  constructor
  · intro caller hrole
    constructor
    · intro hbad
      have hg : caller.role = RoleDeptAdmin ∧
          (p.visibilityType ≠ "department" ∨ caller.deptId = none ∨
           p.departmentId = none ∨ caller.deptId ≠ p.departmentId) := by
        refine ⟨hrole, ?_⟩
        rcases hbad with h | h | h
        · exact Or.inl h
        · exact Or.inr (Or.inr (Or.inl h))
        · cases hc : caller.deptId with
          | none => exact Or.inr (Or.inl rfl)
          | some cd =>
            refine Or.inr (Or.inr (Or.inr ?_))
            intro he
            exact h (by rw [← he, hc])
      unfold PolicyH.createVersion
      rw [hfind]
      dsimp only
      rw [if_pos hg]
    · intro d hcd hpd hvis hc hv
      have hg : ¬(caller.role = RoleDeptAdmin ∧
          (p.visibilityType ≠ "department" ∨ caller.deptId = none ∨
           p.departmentId = none ∨ caller.deptId ≠ p.departmentId)) := by
        rintro ⟨-, h | h | h | h⟩
        · exact h hvis
        · rw [hcd] at h; cases h
        · rw [hpd] at h; cases h
        · rw [hcd, hpd] at h; exact h rfl
      unfold PolicyH.createVersion
      rw [hfind]
      dsimp only
      rw [if_neg hg, if_neg (by simp [hc, hv])]
  · intro caller hrole
    unfold PolicyH.createVersion
    rw [hfind]
    dsimp only
    rw [if_neg (by rintro ⟨h, -⟩; rw [hrole] at h; exact absurd h (by decide))]
    by_cases he : body.content = "" ∨ body.versionString = ""
    · rw [if_pos he]; simp
    · rw [if_neg he]; simp

/-- C6 witness: the sample DeptAdmin of d1 adding a valid version to its
own department-scoped policy p1 succeeds with 201. -/
theorem createVersion_guard_spec_witness :
    (PolicyH.createVersion deptAdminD1 "p1" ⟨"text", "2.0", ""⟩ "v9" 9 sampleDB).status = 201 :=
  ((createVersion_guard_spec sampleDB "p1" ⟨"text", "2.0", ""⟩ "v9" 9 polDeptD1 rfl).1
    deptAdminD1 rfl).2 "d1" rfl rfl rfl (by decide) (by decide)

/-- C4 counterexample: with empty content the claim demands a 400, but a
DeptAdmin caller targeting an organization-wide policy is stopped by the
department guard first and receives 403. -/
theorem createVersion_c4_counterexample :
    (PolicyH.createVersion deptAdminD1 "p2" ⟨"", "", ""⟩ "v9" 9 sampleDB).status = 403 ∧
    (PolicyH.createVersion deptAdminD1 "p2" ⟨"", "", ""⟩ "v9" 9 sampleDB).status ≠ 400 := by
  refine ⟨by decide, by decide⟩

/-- C4 (amended): for an existing policy, a successful CreateVersion
(201) returns a new version row whose policy_id equals the target
policy's id and whose id is the fresh id, appends exactly that row to
the version table, and repoints the policy's current_version_id at it,
so an immediately following GetPolicy sees the new pointer; and when the
caller is not rejected by the department guard, an empty content or
version_string fails with 400 and nothing is changed. -/
theorem createVersion_spec (caller : Caller) (policyId : String) (body : VersionBody)
    (freshId : String) (ts : Nat) (db : DB) (p : Policy)
    (hfind : db.getPolicy policyId = some p) :
    ((PolicyH.createVersion caller policyId body freshId ts db).status = 201 →
       ∃ v, (PolicyH.createVersion caller policyId body freshId ts db).version = some v ∧
         v.policyId = p.id ∧ v.id = freshId ∧
         (PolicyH.createVersion caller policyId body freshId ts db).db.versions
           = db.versions ++ [v] ∧
         ∃ q, (PolicyH.createVersion caller policyId body freshId ts db).db.getPolicy policyId
             = some q ∧ q.currentVersionId = some v.id) ∧
    (¬(caller.role = RoleDeptAdmin ∧
        (p.visibilityType ≠ "department" ∨ caller.deptId = none ∨
         p.departmentId = none ∨ caller.deptId ≠ p.departmentId)) →
       (body.content = "" ∨ body.versionString = "") →
       PolicyH.createVersion caller policyId body freshId ts db = ⟨400, db, none⟩) := by
  have hfind' : db.policies.find? (fun q => q.id == policyId) = some p := hfind
  have hpid : p.id = policyId := by simpa using List.find?_some hfind'
  constructor
  · intro h201
    by_cases hg : caller.role = RoleDeptAdmin ∧
        (p.visibilityType ≠ "department" ∨ caller.deptId = none ∨
         p.departmentId = none ∨ caller.deptId ≠ p.departmentId)
    · exfalso
      unfold PolicyH.createVersion at h201
      rw [hfind] at h201
      dsimp only at h201
      rw [if_pos hg] at h201
      simp at h201
    · by_cases he : body.content = "" ∨ body.versionString = ""
      · exfalso
        unfold PolicyH.createVersion at h201
        rw [hfind] at h201
        dsimp only at h201
        rw [if_neg hg, if_pos he] at h201
        simp at h201
      · refine ⟨⟨freshId, p.id, body.content, body.versionString, body.changelog, ts⟩,
          ?_, rfl, rfl, ?_, ?_⟩
        · unfold PolicyH.createVersion
          rw [hfind]
          dsimp only
          rw [if_neg hg, if_neg he]
          rfl
        · unfold PolicyH.createVersion
          rw [hfind]
          dsimp only
          rw [if_neg hg, if_neg he]
          rfl
        · refine ⟨{ p with currentVersionId := some freshId }, ?_, rfl⟩
          unfold PolicyH.createVersion
          rw [hfind]
          dsimp only
          rw [if_neg hg, if_neg he]
          unfold DB.setPolicyCurrentVersion DB.createPolicyVersion DB.getPolicy
          dsimp only
          have := find?_update_map db.policies policyId p
            (fun q => { q with currentVersionId := some freshId }) (fun q => rfl) hfind'
          simpa [hpid] using this
  · intro hg he
    unfold PolicyH.createVersion
    rw [hfind]
    dsimp only
    rw [if_neg hg, if_pos he]

/-- C4 witness: a SuperAdmin posting a valid version to the sample
policy p1 creates the row and repoints current_version_id at it. -/
theorem createVersion_spec_witness :
    ∃ v, (PolicyH.createVersion superCaller "p1" ⟨"text", "2.0", ""⟩ "v9" 9 sampleDB).version
        = some v ∧
      v.policyId = polDeptD1.id ∧ v.id = "v9" ∧
      (PolicyH.createVersion superCaller "p1" ⟨"text", "2.0", ""⟩ "v9" 9 sampleDB).db.versions
        = sampleDB.versions ++ [v] ∧
      ∃ q, (PolicyH.createVersion superCaller "p1" ⟨"text", "2.0", ""⟩ "v9" 9 sampleDB).db.getPolicy "p1"
          = some q ∧ q.currentVersionId = some v.id :=
  (createVersion_spec superCaller "p1" ⟨"text", "2.0", ""⟩ "v9" 9 sampleDB polDeptD1 rfl).1
    (by decide)

/-- C9 counterexample: a department-scoped create request with no
department_id — a department/visibility mismatch the claim says fails
with 400 — succeeds with 201 and persists the mismatched policy. -/
theorem policyCreate_c9_counterexample :
    (PolicyH.create superCaller ⟨"T", "", none, "department"⟩ "p9" 9 emptyDB).status = 201 ∧
    (PolicyH.create superCaller ⟨"T", "", none, "department"⟩ "p9" 9 emptyDB).db.policies =
      [⟨"p9", "T", none, "Draft", "", none, "department", 9⟩] := by
  refine ⟨by decide, by decide⟩

/-- C9 (amended): a successful CreatePolicy call appends a policy with
status Draft and null current_version_id; the call fails with 400 and
changes nothing if the title is empty, or if a non-empty visibility
type is neither organization nor department (an empty one defaults to
organization instead of failing); department/visibility mismatches are
not rejected as such: any request whose department_id is null or
references an existing department succeeds, while a department_id not
matching any department row fails the policies.department_id foreign
key with 500. -/
theorem policyCreate_spec (caller : Caller) (body : CreatePolicyBody)
    (freshId : String) (ts : Nat) (db : DB) :
    (body.title = "" → PolicyH.create caller body freshId ts db = ⟨400, db⟩) ∧
    (body.title ≠ "" → body.visibilityType ≠ "" →
       validVisibility body.visibilityType = false →
       PolicyH.create caller body freshId ts db = ⟨400, db⟩) ∧
    (body.title ≠ "" →
       validVisibility (if body.visibilityType = "" then "organization" else body.visibilityType) = true →
       caller.role ≠ RoleDeptAdmin →
       (db.fkDeptOk body.departmentId = true →
          (PolicyH.create caller body freshId ts db).status = 201 ∧
          ∃ pnew, (PolicyH.create caller body freshId ts db).db.policies = db.policies ++ [pnew] ∧
            pnew.status = "Draft" ∧ pnew.currentVersionId = none) ∧
       (db.fkDeptOk body.departmentId = false →
          PolicyH.create caller body freshId ts db = ⟨500, db⟩)) ∧
    (body.title ≠ "" →
       validVisibility (if body.visibilityType = "" then "organization" else body.visibilityType) = true →
       caller.role = RoleDeptAdmin →
       ∀ cd, caller.deptId = some cd → db.departmentExists cd = true →
       (PolicyH.create caller body freshId ts db).status = 201 ∧
       ∃ pnew, (PolicyH.create caller body freshId ts db).db.policies = db.policies ++ [pnew] ∧
         pnew.status = "Draft" ∧ pnew.currentVersionId = none) := by
  refine ⟨?_, ?_, ?_, ?_⟩
  · intro h
    unfold PolicyH.create
    rw [if_pos h]
  · intro h1 h2 hv
    unfold PolicyH.create
    rw [if_neg h1]
    dsimp only
    have hcond : (!(validVisibility
        (if body.visibilityType = "" then "organization" else body.visibilityType))) = true := by
      rw [if_neg h2, hv]
      rfl
    rw [if_pos hcond]
  · intro h1 hv hr
    have hcond : (!(validVisibility
        (if body.visibilityType = "" then "organization" else body.visibilityType))) = false := by
      rw [hv]
      rfl
    constructor
    · intro hfk
      unfold PolicyH.create
      rw [if_neg h1]
      dsimp only
      rw [if_neg (by simp [hcond]), if_neg hr]
      unfold DB.createPolicy
      rw [if_pos hfk]
      exact ⟨rfl, ⟨freshId, body.title, none, "Draft", body.department, body.departmentId,
        if body.visibilityType = "" then "organization" else body.visibilityType, ts⟩,
        rfl, rfl, rfl⟩
    · intro hfk
      unfold PolicyH.create
      rw [if_neg h1]
      dsimp only
      rw [if_neg (by simp [hcond]), if_neg hr]
      unfold DB.createPolicy
      rw [if_neg (by simp [hfk])]
  · intro h1 hv hr cd hcd hex
    have hcond : (!(validVisibility
        (if body.visibilityType = "" then "organization" else body.visibilityType))) = false := by
      rw [hv]
      rfl
    unfold PolicyH.create
    rw [if_neg h1]
    dsimp only
    rw [if_neg (by simp [hcond]), if_pos hr, hcd]
    dsimp only
    unfold DB.createPolicy
    rw [if_pos (by simp [DB.fkDeptOk, hex])]
    exact ⟨rfl, ⟨freshId, body.title, none, "Draft", body.department, some cd,
      "department", ts⟩, rfl, rfl, rfl⟩

/-- C9 witness: a SuperAdmin creating a well-formed organization-wide
policy gets 201 and the appended policy is a Draft with no current
version. -/
theorem policyCreate_spec_witness :
    (PolicyH.create superCaller ⟨"Welcome", "", none, "organization"⟩ "p8" 8 emptyDB).status = 201 ∧
    ∃ pnew, (PolicyH.create superCaller ⟨"Welcome", "", none, "organization"⟩ "p8" 8 emptyDB).db.policies
        = emptyDB.policies ++ [pnew] ∧ pnew.status = "Draft" ∧ pnew.currentVersionId = none :=
  ((policyCreate_spec superCaller ⟨"Welcome", "", none, "organization"⟩ "p8" 8 emptyDB).2.2.1
    (by decide) (by decide) (by decide)).1 (by decide)

/-- Any policy create issued by a DeptAdmin caller preserves the scope
condition: the appended policy is department-scoped to the caller's
non-null department. -/
theorem create_preserves_scopeInv (caller : Caller) (body : CreatePolicyBody)
    (freshId : String) (ts : Nat) (db : DB)
    (hrole : caller.role = RoleDeptAdmin) (hdb : dbScopeInv db) :
    dbScopeInv (PolicyH.create caller body freshId ts db).db := by
  unfold PolicyH.create
  by_cases h1 : body.title = ""
  · rw [if_pos h1]
    exact hdb
  · rw [if_neg h1]
    dsimp only
    by_cases h2 : (!(validVisibility
        (if body.visibilityType = "" then "organization" else body.visibilityType))) = true
    · rw [if_pos h2]
      exact hdb
    · rw [if_neg h2, if_pos hrole]
      cases hc : caller.deptId with
      | none => exact hdb
      | some cd =>
        dsimp only
        unfold DB.createPolicy
        by_cases hfk : db.fkDeptOk (some cd) = true
        · rw [if_pos hfk]
          dsimp only
          intro q hq
          rcases List.mem_append.mp hq with hq | hq
          · exact hdb q hq
          · have hq' : q = ⟨freshId, body.title, none, "Draft", body.department, some cd,
                "department", ts⟩ := by simpa using hq
            subst hq'
            refine ⟨fun h => ?_, fun h => ?_⟩
            · simp at h
            · simp
        · rw [if_neg hfk]
          exact hdb

/-- A store row rewrite that clamps the affected policy to department
scope with a concrete department preserves the scope condition. -/
theorem updatePolicy_clamped_scopeInv (db : DB) (pid title status dept cd : String)
    (hdb : dbScopeInv db) :
    dbScopeInv (db.updatePolicy pid title status dept (some cd) "department") := by
  intro q hq
  unfold DB.updatePolicy at hq
  dsimp only at hq
  rcases List.mem_map.mp hq with ⟨q0, hq0, rfl⟩
  by_cases hid : (q0.id == pid) = true
  · rw [if_pos hid]
    refine ⟨fun h => ?_, fun h => ?_⟩
    · simp at h
    · simp
  · rw [if_neg hid]
    exact hdb q0 hq0

/-- Any policy update issued by a DeptAdmin caller preserves the scope
condition: the rewritten policy is clamped to department scope with the
caller's non-null department, and all other rows are untouched. -/
theorem update_preserves_scopeInv (caller : Caller) (policyId : String)
    (body : UpdatePolicyBody) (db : DB)
    (hrole : caller.role = RoleDeptAdmin) (hdb : dbScopeInv db) :
    dbScopeInv (PolicyH.update caller policyId body db).db := by
  unfold PolicyH.update
  cases hp : db.getPolicy policyId with
  | none => exact hdb
  | some policy =>
    dsimp only
    by_cases hg : caller.role = RoleDeptAdmin ∧
        (caller.deptId = none ∨ policy.departmentId = none ∨
         caller.deptId ≠ policy.departmentId)
    · rw [if_pos hg]
      exact hdb
    · rw [if_neg hg]
      have hcd : caller.deptId ≠ none := fun hc => hg ⟨hrole, Or.inl hc⟩
      cases hc : caller.deptId with
      | none => exact absurd hc hcd
      | some cd =>
        rw [if_pos hrole, if_pos hrole]
        by_cases hv : validStatus (if body.status = "" then policy.status else body.status) = true
        · rw [if_pos hv]
          exact updatePolicy_clamped_scopeInv db policy.id _ _ _ cd hdb
        · rw [if_neg hv]
          exact hdb

/-- One DeptAdmin policy operation preserves the scope condition. -/
theorem policyOp_preserves_scopeInv (op : PolicyOp) (db : DB)
    (hrole : op.opCaller.role = RoleDeptAdmin) (hdb : dbScopeInv db) :
    dbScopeInv (applyPolicyOp db op) := by
  cases op with
  | create c body fid ts => exact create_preserves_scopeInv c body fid ts db hrole hdb
  | update c pid body => exact update_preserves_scopeInv c pid body db hrole hdb

/-- C2 counterexample: starting from a store satisfying the claimed
invariant and holding the department d1 (so the foreign key is
satisfied), a single successful SuperAdmin create reaches a store
containing an organization-wide policy with a non-null department_id,
violating the claimed invariant. -/
theorem scopeInv_c2_counterexample :
    dbScopeInv dbDept ∧
    (PolicyH.create superCaller ⟨"T", "", some "d1", "organization"⟩ "p1" 0 dbDept).status = 201 ∧
    ∃ p ∈ (applyPolicyOps dbDept
        [PolicyOp.create superCaller ⟨"T", "", some "d1", "organization"⟩ "p1" 0]).policies,
      ¬policyScopeInv p := by
  refine ⟨fun p hp => absurd hp (List.not_mem_nil p), by decide,
    ⟨"p1", "T", none, "Draft", "", some "d1", "organization", 0⟩, by decide, by decide⟩

/-- C2 (amended): every store state reachable from a store satisfying
the visibility/department condition by a sequence of policy create and
update operations issued by DeptAdmin callers still satisfies it:
organization-wide implies null department_id and department-scoped
implies non-null department_id. The store operations themselves do not
enforce the condition, and SuperAdmin create/update requests can
violate it. -/
theorem deptAdmin_ops_preserve_scopeInv (ops : List PolicyOp) (db : DB)
    (hops : ∀ op ∈ ops, op.opCaller.role = RoleDeptAdmin)
    (hdb : dbScopeInv db) :
    dbScopeInv (applyPolicyOps db ops) := by
  induction ops generalizing db with
  | nil => exact hdb
  | cons op ops ih =>
    have h1 := policyOp_preserves_scopeInv op db (hops op (by simp)) hdb
    exact ih (applyPolicyOp db op) (fun o ho => hops o (by simp [ho])) h1

/-- C2 witness: a DeptAdmin create followed by a DeptAdmin update of the
same policy keeps the scope condition from the store holding only the
caller's department. -/
theorem deptAdmin_ops_preserve_scopeInv_witness :
    dbScopeInv (applyPolicyOps dbDept
      [PolicyOp.create deptAdminD1 ⟨"T", "", none, "organization"⟩ "p1" 0,
       PolicyOp.update deptAdminD1 "p1" ⟨"", "Published", "", none, "organization"⟩]) := by
  have h := deptAdmin_ops_preserve_scopeInv
    [PolicyOp.create deptAdminD1 ⟨"T", "", none, "organization"⟩ "p1" 0,
     PolicyOp.update deptAdminD1 "p1" ⟨"", "Published", "", none, "organization"⟩]
    dbDept ?_ ?_
  · exact h
  · intro op hop
    simp only [List.mem_cons, List.not_mem_nil, or_false] at hop
    rcases hop with rfl | rfl
    · rfl
    · rfl
  · intro p hp
    exact absurd hp (List.not_mem_nil p)

/-- The newest-first sort is a permutation of its input. -/
theorem sortNewestFirst_perm (ps : List Policy) : (sortNewestFirst ps).Perm ps :=
  List.mergeSort_perm ps _

/-- The newest-first sort is ordered newest-first. -/
theorem sortNewestFirst_sorted (ps : List Policy) : newestFirst (sortNewestFirst ps) := by
  have h := @List.sorted_mergeSort Policy (fun a b => decide (b.createdAt ≤ a.createdAt))
    (fun a b c hab hbc => by simp at hab hbc ⊢; omega)
    (fun a b => by simp; omega) ps
  unfold newestFirst sortNewestFirst
  simpa using h

/-- C5: listing visible policies returns, for a SuperAdmin, all policies
ordered newest-first; for a non-SuperAdmin with a department, exactly
the organization-wide policies together with the department-scoped
policies of that department; and for a non-SuperAdmin with no
department, exactly the organization-wide policies. -/
theorem listPoliciesForUser_spec (db : DB) (role : String) (deptId : Option String) :
    (role = "SuperAdmin" →
       (db.listPoliciesForUser role deptId).Perm db.policies ∧
       newestFirst (db.listPoliciesForUser role deptId)) ∧
    (role ≠ "SuperAdmin" → ∀ d, deptId = some d → ∀ p,
       p ∈ db.listPoliciesForUser role deptId ↔
         p ∈ db.policies ∧ (p.visibilityType = "organization" ∨
           (p.visibilityType = "department" ∧ p.departmentId = some d))) ∧
    (role ≠ "SuperAdmin" → deptId = none → ∀ p,
       p ∈ db.listPoliciesForUser role deptId ↔
         p ∈ db.policies ∧ p.visibilityType = "organization") := by
  refine ⟨?_, ?_, ?_⟩
  · intro h
    unfold DB.listPoliciesForUser
    rw [if_pos h]
    exact ⟨sortNewestFirst_perm _, sortNewestFirst_sorted _⟩
  · intro h d hd p
    unfold DB.listPoliciesForUser
    rw [if_neg h, hd]
    dsimp only
    rw [(sortNewestFirst_perm _).mem_iff, List.mem_filter]
    simp
  · intro h hd p
    unfold DB.listPoliciesForUser
    rw [if_neg h, hd]
    dsimp only
    rw [(sortNewestFirst_perm _).mem_iff, List.mem_filter]
    simp

/-- C5 witness: a Staff member of d1 sees the department-scoped sample
policy p1, since it belongs to their own department. -/
theorem listPoliciesForUser_spec_witness :
    polDeptD1 ∈ sampleDB.listPoliciesForUser "Staff" (some "d1") ↔
      polDeptD1 ∈ sampleDB.policies ∧ (polDeptD1.visibilityType = "organization" ∨
        (polDeptD1.visibilityType = "department" ∧ polDeptD1.departmentId = some "d1")) :=
  (listPoliciesForUser_spec sampleDB "Staff" (some "d1")).2.1 (by decide) "d1" rfl polDeptD1

end PolicyFlow
